import Mathlib

/-!
Shallow embedding of the nuki_events integration (custom_components/nuki_events):
the webhook signature gate (webhook.py), the webhook event reducer
(coordinator.py, NukiDataCoordinator.async_handle_webhook and _bump_counter)
and the last-action display formatter (sensor.py, NukiLastActionSensor._format_action).

JSON values are modelled by the inductive type Json below; Python None and JSON
null are identified (Python json.loads decodes null to None, and dict.get on a
missing key also returns None, so the two are indistinguishable to this code).
JSON numbers are modelled as integers: every numeric field the code touches is
an integer code or id.  Statements that can raise in Python (int() on a
non-numeric value, attribute access on a non-dict) are modelled in the Except
monad; in the embedded code every possible raise happens before any store
mutation, which matches the Python source, where the raising statements
(lines 130-131, 135, 137, 163, 169, 177, 181, 183 of coordinator.py) all
precede the first dictionary write of their branch.
-/

inductive Json where
  | null : Json
  | bool : Bool → Json
  | num : Int → Json
  | str : String → Json
  | arr : List Json → Json
  | obj : List (String × Json) → Json
deriving Repr

mutual
/-- Structural decidable equality for Json (the derive handler does not support
this nested inductive). -/
def Json.decEq : (a b : Json) → Decidable (a = b)
  | .null, .null => isTrue rfl
  | .null, .bool _ => isFalse nofun
  | .null, .num _ => isFalse nofun
  | .null, .str _ => isFalse nofun
  | .null, .arr _ => isFalse nofun
  | .null, .obj _ => isFalse nofun
  | .bool _, .null => isFalse nofun
  | .bool a, .bool b =>
      if h : a = b then isTrue (h ▸ rfl)
      else isFalse (by intro hh; injection hh; contradiction)
  | .bool _, .num _ => isFalse nofun
  | .bool _, .str _ => isFalse nofun
  | .bool _, .arr _ => isFalse nofun
  | .bool _, .obj _ => isFalse nofun
  | .num _, .null => isFalse nofun
  | .num _, .bool _ => isFalse nofun
  | .num a, .num b =>
      if h : a = b then isTrue (h ▸ rfl)
      else isFalse (by intro hh; injection hh; contradiction)
  | .num _, .str _ => isFalse nofun
  | .num _, .arr _ => isFalse nofun
  | .num _, .obj _ => isFalse nofun
  | .str _, .null => isFalse nofun
  | .str _, .bool _ => isFalse nofun
  | .str _, .num _ => isFalse nofun
  | .str a, .str b =>
      if h : a = b then isTrue (h ▸ rfl)
      else isFalse (by intro hh; injection hh; contradiction)
  | .str _, .arr _ => isFalse nofun
  | .str _, .obj _ => isFalse nofun
  | .arr _, .null => isFalse nofun
  | .arr _, .bool _ => isFalse nofun
  | .arr _, .num _ => isFalse nofun
  | .arr _, .str _ => isFalse nofun
  | .arr xs, .arr ys =>
      match Json.decEqList xs ys with
      | isTrue h => isTrue (h ▸ rfl)
      | isFalse h => isFalse (by intro hh; injection hh; contradiction)
  | .arr _, .obj _ => isFalse nofun
  | .obj _, .null => isFalse nofun
  | .obj _, .bool _ => isFalse nofun
  | .obj _, .num _ => isFalse nofun
  | .obj _, .str _ => isFalse nofun
  | .obj _, .arr _ => isFalse nofun
  | .obj xs, .obj ys =>
      match Json.decEqFields xs ys with
      | isTrue h => isTrue (h ▸ rfl)
      | isFalse h => isFalse (by intro hh; injection hh; contradiction)

def Json.decEqList : (xs ys : List Json) → Decidable (xs = ys)
  | [], [] => isTrue rfl
  | [], _ :: _ => isFalse nofun
  | _ :: _, [] => isFalse nofun
  | x :: xs, y :: ys =>
      match Json.decEq x y with
      | isFalse h => isFalse (by intro hh; injection hh; contradiction)
      | isTrue h1 =>
        match Json.decEqList xs ys with
        | isTrue h2 => isTrue (by rw [h1, h2])
        | isFalse h => isFalse (by intro hh; injection hh; contradiction)

def Json.decEqFields : (xs ys : List (String × Json)) → Decidable (xs = ys)
  | [], [] => isTrue rfl
  | [], _ :: _ => isFalse nofun
  | _ :: _, [] => isFalse nofun
  | (k1, v1) :: xs, (k2, v2) :: ys =>
      if hk : k1 = k2 then
        match Json.decEq v1 v2 with
        | isFalse h => isFalse (by
            intro hh; injection hh with hp ht; exact h (congrArg Prod.snd hp))
        | isTrue hv =>
          match Json.decEqFields xs ys with
          | isTrue ht => isTrue (by rw [hk, hv, ht])
          | isFalse h => isFalse (by intro hh; injection hh; contradiction)
      else
        isFalse (by intro hh; injection hh with hp ht; exact hk (congrArg Prod.fst hp))
end

instance : DecidableEq Json := Json.decEq

/-- Association-list lookup, first binding wins (Python dict keys are unique). -/
def lookupKey {κ α : Type} [DecidableEq κ] : List (κ × α) → κ → Option α
  | [], _ => none
  | (k0, v) :: rest, k => if k0 = k then some v else lookupKey rest k

/-- Lookup with a default value, Python dict.get(key, default). -/
def lookupD {κ α : Type} [DecidableEq κ] (m : List (κ × α)) (k : κ) (d : α) : α :=
  (lookupKey m k).getD d

/-- Python dict assignment d[k] = v: replace in place if the key exists, else append. -/
def upsert {κ α : Type} [DecidableEq κ] : List (κ × α) → κ → α → List (κ × α)
  | [], k, v => [(k, v)]
  | (k0, v0) :: rest, k, v =>
      if k0 = k then (k0, v) :: rest else (k0, v0) :: upsert rest k v

/-- Python dict.pop(k, None): remove the binding for k if present. -/
def removeKey {κ α : Type} [DecidableEq κ] : List (κ × α) → κ → List (κ × α)
  | [], _ => []
  | (k0, v0) :: rest, k =>
      if k0 = k then rest else (k0, v0) :: removeKey rest k

/-- Python dict.get(k) on a JSON object: None (null) when the key is missing. -/
def getVal (fs : List (String × Json)) (k : String) : Json :=
  lookupD fs k Json.null

/-- Python truthiness of a JSON value (None, False, 0, empty string and empty
containers are falsy). -/
def pyTruthy : Json → Bool
  | .null => false
  | .bool b => b
  | .num n => n != 0
  | .str s => s != ""
  | .arr xs => !xs.isEmpty
  | .obj fs => !fs.isEmpty

/-- Python a or b: a when a is truthy, else b. -/
def pyOr (a b : Json) : Json :=
  if pyTruthy a then a else b

/-- Python v is None (Python None and JSON null are identified here). -/
def isNull : Json → Bool
  | .null => true
  | _ => false

/-- Python v == s for a decoded JSON value v and a string literal s: only an
equal string compares True (no other decoded type equals a str). -/
def jsonEqStr (j : Json) (s : String) : Bool :=
  match j with
  | .str t => t == s
  | _ => false

/-- The six ASCII characters Python int() strips as whitespace. -/
def isPySpace (c : Char) : Bool :=
  match c with
  | ' ' | '\t' | '\n' | '\r' | '\x0b' | '\x0c' => true
  | _ => false

def digitsValAux : List Char → Nat → Option Nat
  | [], acc => some acc
  | c :: rest, acc =>
      if c.isDigit then digitsValAux rest (acc * 10 + (c.toNat - 48)) else none

def digitsVal (cs : List Char) : Option Nat :=
  if cs.isEmpty then none else digitsValAux cs 0

/-- Python int(s) for a string argument: optional surrounding whitespace, optional
sign, then a non-empty run of decimal digits; anything else raises ValueError,
modelled as none.  (Digit-group underscores, which CPython also accepts, are not
modelled; no payload in the repository uses them.) -/
def parsePyInt (s : String) : Option Int :=
  let cs := ((s.toList.dropWhile isPySpace).reverse.dropWhile isPySpace).reverse
  match cs with
  | '+' :: rest => (digitsVal rest).map (fun n => (n : Int))
  | '-' :: rest => (digitsVal rest).map (fun n => -(n : Int))
  | rest => (digitsVal rest).map (fun n => (n : Int))

/-- Python int(v): identity on integers, 0/1 on booleans, digit parsing on
strings; None and containers raise TypeError and non-numeric strings raise
ValueError, both modelled as none. -/
def pyInt : Json → Option Int
  | .bool b => some (if b then 1 else 0)
  | .num n => some n
  | .str s => parsePyInt s
  | _ => none

mutual
/-- Python str(v) of a decoded JSON value.  Exact for None, booleans, integers
and strings.  Container rendering recurses like CPython repr but quotes strings
with double quotes instead of single quotes; no code path exercised by a claim
applies str() to a container. -/
def pyStr : Json → String
  | .null => "None"
  | .bool true => "True"
  | .bool false => "False"
  | .num n => toString n
  | .str s => s
  | .arr xs => "[" ++ String.intercalate ", " (pyReprList xs) ++ "]"
  | .obj fs => "\x7b" ++ String.intercalate ", " (pyReprFields fs) ++ "\x7d"

def pyRepr : Json → String
  | .null => "None"
  | .bool true => "True"
  | .bool false => "False"
  | .num n => toString n
  | .str s => "\"" ++ s ++ "\""
  | .arr xs => "[" ++ String.intercalate ", " (pyReprList xs) ++ "]"
  | .obj fs => "\x7b" ++ String.intercalate ", " (pyReprFields fs) ++ "\x7d"

def pyReprList : List Json → List String
  | [] => []
  | j :: rest => pyRepr j :: pyReprList rest

def pyReprFields : List (String × Json) → List String
  | [] => []
  | (k, v) :: rest => ("\"" ++ k ++ "\": " ++ pyRepr v) :: pyReprFields rest
end

/-! Constants from const.py. -/

def DOMAIN : String := "nuki_events"

def WEBHOOK_FEATURE_DEVICE_STATUS : String := "DEVICE_STATUS"

def WEBHOOK_FEATURE_DEVICE_LOGS : String := "DEVICE_LOGS"

def WEBHOOK_FEATURE_DEVICE_AUTHS : String := "DEVICE_AUTHS"

def EVENT_NUKI_WEBHOOK : String := DOMAIN ++ "_webhook"

def EVENT_NUKI_LOCK_EVENT : String := DOMAIN ++ "_lock_event"

/-! Lookup tables from coordinator.py (lines 20-68). -/

def TRIGGER_LABEL : List (Int × String) :=
  [(0, "System (Bluetooth)"), (1, "Manual"), (2, "Button"), (3, "Automatic"),
   (4, "Web"), (5, "App"), (6, "Auto lock"), (7, "Accessory"), (255, "Keypad")]

def ACTION_LABEL : List (Int × String) :=
  [(1, "unlock"), (2, "lock"), (3, "unlatch"), (4, "lock_n_go"),
   (5, "lock_n_go_unlatch"), (208, "door_sensor_jammed"), (209, "door_sensor_error"),
   (224, "keypad_battery_critical"), (225, "keypad_battery_low"),
   (226, "keypad_battery_ok"), (240, "door_opened"), (241, "door_closed"),
   (243, "firmware_update"), (252, "initialization"), (253, "calibration"),
   (254, "log_enabled"), (255, "log_disabled")]

def COMPLETION_STATE_LABEL : List (Int × String) :=
  [(0, "success"), (1, "motor_blocked"), (2, "canceled"), (3, "too_recent"),
   (4, "busy"), (5, "low_motor_voltage"), (6, "clutch_failure"),
   (7, "motor_power_failure"), (8, "incomplete"), (9, "other_error"),
   (10, "rejected_night_mode"), (254, "other_error"), (255, "unknown_error")]

def SOURCE_LABEL : List (Int × String) :=
  [(0, "default"), (1, "keypad_code"), (2, "fingerprint")]

/-- The coordinator data dictionary (Device State Store): the keyed mappings
created by the default literal at coordinator.py lines 116-128.  Per-device maps
are keyed by the integer smartlock id; values are the stored Python objects. -/
structure Store where
  locks : List Json
  auth_map : List (String × String)
  last_actor : List (Int × Json)
  last_auth_id : List (Int × Json)
  last_action : List (Int × Json)
  last_trigger : List (Int × Json)
  last_date : List (Int × Json)
  last_completion_state : List (Int × Json)
  last_source : List (Int × Json)
  last_device_type : List (Int × Json)
  event_counter : List (Int × Int)
deriving Repr, DecidableEq

/-- The default store built when self.data is None (coordinator.py lines 116-128). -/
def emptyStore : Store :=
  { locks := [], auth_map := [], last_actor := [], last_auth_id := [],
    last_action := [], last_trigger := [], last_date := [],
    last_completion_state := [], last_source := [], last_device_type := [],
    event_counter := [] }

/-! Embedding of NukiDataCoordinator.async_handle_webhook (coordinator.py
lines 107-254).  Events fired on the Home Assistant bus are collected in the
returned list; each bus event is an event-type name paired with its data dict. -/

def BusEvent : Type := String × List (String × Json)

/-- A Python optional string rendered as the stored/fired Python object. -/
def optStrJson : Option String → Json
  | some s => Json.str s
  | none => Json.null

/-- TABLE.get(i, default) where the key is the result of an int coercion:
a None key is never in an int-keyed table, so it yields the default. -/
def labelOr (tbl : List (Int × String)) (k : Option Int) (dflt : Json) : Json :=
  match k with
  | none => dflt
  | some i =>
      match lookupKey tbl i with
      | some lbl => Json.str lbl
      | none => dflt

/-- Embedding of the helper to_int inside the DEVICE_LOGS branch
(coordinator.py lines 199-203): int(v) if v is not None else None, with any
coercion failure caught and turned into None. -/
def to_int (v : Json) : Option Int :=
  if isNull v then none else pyInt v

/-- Embedding of NukiDataCoordinator._bump_counter (lines 107-110): read the
device counter (default 0), add one, store it back, return the new value. -/
def _bump_counter (current : Store) (smartlock_id : Int) : Store × Int :=
  let counter := lookupD current.event_counter smartlock_id 0 + 1
  ({ current with event_counter := upsert current.event_counter smartlock_id counter }, counter)

/-- Embedding of the trigger-label actor fallback (coordinator.py lines 192-197). -/
def actor_trigger_fallback (lfs : List (String × Json)) : String :=
  let trig := getVal lfs "trigger"
  match to_int trig with
  | some trig_i => lookupD TRIGGER_LABEL trig_i "Unknown"
  | none => "Unknown"

/-- Embedding of actor resolution (coordinator.py lines 186-197): explicit name
field first, then the auth_map entry for a truthy auth id string, then the
trigger label (or the literal Unknown). -/
def resolve_actor (auth_map : List (String × String)) (auth_id_str : Option String)
    (lfs : List (String × Json)) : String :=
  let name := getVal lfs "name"
  if pyTruthy name then pyStr name
  else
    match auth_id_str with
    | some s =>
        if s != "" then
          match lookupKey auth_map s with
          | some v => v
          | none => actor_trigger_fallback lfs
        else actor_trigger_fallback lfs
    | none => actor_trigger_fallback lfs

/-- DEVICE_AUTHS branch (coordinator.py lines 134-160).  A truthy non-dict
smartlockAuth makes auth.get raise (AttributeError), modelled as error; the
raise precedes every mutation. -/
def handle_device_auths (entry_id : String) (current : Store) (feature : Json)
    (pfs : List (String × Json)) (ev0 : BusEvent) : Except Unit (Store × List BusEvent) :=
  let auth := pyOr (getVal pfs "smartlockAuth") (Json.obj [])
  match auth with
  | .obj afs =>
      let deleted := pyTruthy (getVal pfs "deleted")
      let auth_id := getVal afs "authId"
      let name := getVal afs "name"
      let auth_map :=
        if !isNull auth_id then
          let aid := pyStr auth_id
          if deleted then removeKey current.auth_map aid
          else if pyTruthy name then upsert current.auth_map aid (pyStr name)
          else current.auth_map
        else current.auth_map
      let current2 := { current with auth_map := auth_map }
      let ev : BusEvent := (EVENT_NUKI_LOCK_EVENT,
        [("entry_id", Json.str entry_id),
         ("feature", feature),
         ("smartlockId", pyOr (getVal afs "smartlockId") (getVal pfs "smartlockId")),
         ("authId", if !isNull auth_id then Json.str (pyStr auth_id) else Json.null),
         ("username", if !isNull auth_id then optStrJson (lookupKey auth_map (pyStr auth_id)) else Json.null),
         ("deleted", Json.bool deleted)])
      Except.ok (current2, [ev0, ev])
  | _ => Except.error ()

/-- DEVICE_STATUS branch (coordinator.py lines 162-174): fire the raw state on
the bus and republish the store unchanged.  Nothing is written to the store and
no counter is bumped. -/
def handle_device_status (entry_id : String) (current : Store) (feature : Json)
    (pfs : List (String × Json)) (ev0 : BusEvent) : Except Unit (Store × List BusEvent) :=
  let state_obj := pyOr (getVal pfs "state") (Json.obj [])
  match state_obj with
  | .obj sfs =>
      let ev : BusEvent := (EVENT_NUKI_LOCK_EVENT,
        [("entry_id", Json.str entry_id),
         ("feature", feature),
         ("smartlockId", pyOr (getVal sfs "smartlockId") (getVal pfs "smartlockId")),
         ("state", Json.obj sfs)])
      Except.ok (current, [ev0, ev])
  | _ => Except.error ()

/-- auth_id_str of a device-log event (coordinator.py lines 183-184):
str(authId) when the field is not None, else None. -/
def log_auth_id_str (lfs : List (String × Json)) : Option String :=
  if !isNull (getVal lfs "authId") then some (pyStr (getVal lfs "authId")) else none

/-- The stored actor of a device-log event (coordinator.py lines 186-197). -/
def log_actor (auth_map : List (String × String)) (lfs : List (String × Json)) : String :=
  resolve_actor auth_map (log_auth_id_str lfs) lfs

/-- The stored action of a device-log event (coordinator.py lines 205, 210):
ACTION_LABEL.get(to_int(action), raw action field). -/
def log_action (lfs : List (String × Json)) : Json :=
  labelOr ACTION_LABEL (to_int (getVal lfs "action")) (getVal lfs "action")

/-- The stored trigger of a device-log event (lines 206, 211). -/
def log_trigger (lfs : List (String × Json)) : Json :=
  labelOr TRIGGER_LABEL (to_int (getVal lfs "trigger")) (getVal lfs "trigger")

/-- The stored completion state of a device-log event (lines 207, 212): the
raw field is named state. -/
def log_completion_state (lfs : List (String × Json)) : Json :=
  labelOr COMPLETION_STATE_LABEL (to_int (getVal lfs "state")) (getVal lfs "state")

/-- The stored source of a device-log event (lines 208, 213). -/
def log_source (lfs : List (String × Json)) : Json :=
  labelOr SOURCE_LABEL (to_int (getVal lfs "source")) (getVal lfs "source")

/-- The eight attribute writes of the DEVICE_LOGS branch (coordinator.py lines
219-226): every attribute of the device is overwritten, whether or not the
corresponding event field is present. -/
def logs_store_update (current : Store) (lfs : List (String × Json))
    (smartlock_id : Int) : Store :=
  { current with
    last_actor := upsert current.last_actor smartlock_id
      (Json.str (log_actor current.auth_map lfs)),
    last_auth_id := upsert current.last_auth_id smartlock_id
      (optStrJson (log_auth_id_str lfs)),
    last_action := upsert current.last_action smartlock_id (log_action lfs),
    last_trigger := upsert current.last_trigger smartlock_id (log_trigger lfs),
    last_completion_state := upsert current.last_completion_state smartlock_id
      (log_completion_state lfs),
    last_source := upsert current.last_source smartlock_id (log_source lfs),
    last_device_type := upsert current.last_device_type smartlock_id (getVal lfs "deviceType"),
    last_date := upsert current.last_date smartlock_id (getVal lfs "date") }

/-- The EVENT_NUKI_LOCK_EVENT payload fired by the DEVICE_LOGS branch
(coordinator.py lines 230-248). -/
def logs_event (entry_id : String) (feature : Json) (current : Store)
    (lfs : List (String × Json)) (smartlock_id : Int) (counter : Int) : BusEvent :=
  (EVENT_NUKI_LOCK_EVENT,
    [("entry_id", Json.str entry_id),
     ("feature", feature),
     ("smartlockId", Json.num smartlock_id),
     ("actor", Json.str (log_actor current.auth_map lfs)),
     ("authId", optStrJson (log_auth_id_str lfs)),
     ("username",
       match log_auth_id_str lfs with
       | some s => if s != "" then optStrJson (lookupKey current.auth_map s) else Json.null
       | none => Json.null),
     ("action", log_action lfs),
     ("trigger", log_trigger lfs),
     ("completion_state", log_completion_state lfs),
     ("source", log_source lfs),
     ("deviceType", getVal lfs "deviceType"),
     ("autoUnlock", getVal lfs "autoUnlock"),
     ("date", getVal lfs "date"),
     ("event_counter", Json.num counter)])

/-- DEVICE_LOGS branch (coordinator.py lines 176-251).  A missing device id
(None after the two-level lookup) drops the event (async_request_refresh does
not touch the store); a present but non-coercible id raises at int(), modelled
as error; otherwise all eight per-device attributes are overwritten and the
counter is bumped. -/
def handle_device_logs (entry_id : String) (current : Store) (feature : Json)
    (log : Json) (pfs : List (String × Json)) (ev0 : BusEvent) : Except Unit (Store × List BusEvent) :=
  match log with
  | .obj lfs =>
      let v := pyOr (getVal lfs "smartlockId") (getVal pfs "smartlockId")
      if isNull v then Except.ok (current, [ev0])
      else
        match pyInt v with
        | none => Except.error ()
        | some smartlock_id =>
            let st1 := logs_store_update current lfs smartlock_id
            let res := _bump_counter st1 smartlock_id
            Except.ok (res.1, [ev0, logs_event entry_id feature current lfs smartlock_id res.2])
  | _ => Except.error ()

/-- Embedding of NukiDataCoordinator.async_handle_webhook (lines 112-254).
The function takes the coordinator data (None on first use, replaced by the
literal default), dispatches on the feature discriminator and returns the new
store together with the fired bus events; error models an escaping Python
exception (every raise precedes the first store mutation of its branch). -/
def webhookEvent (entry_id : String) (payload : Json) : BusEvent :=
  (EVENT_NUKI_WEBHOOK, [("entry_id", Json.str entry_id), ("payload", payload)])

def async_handle_webhook (entry_id : String) (data : Option Store) (payload : Json) :
    Except Unit (Store × List BusEvent) :=
  let ev0 : BusEvent := webhookEvent entry_id payload
  let current := data.getD emptyStore
  match payload with
  | .obj pfs =>
      let feature := getVal pfs "feature"
      let log := pyOr (getVal pfs "smartlockLog") (Json.obj [])
      if jsonEqStr feature WEBHOOK_FEATURE_DEVICE_AUTHS then
        handle_device_auths entry_id current feature pfs ev0
      else if jsonEqStr feature WEBHOOK_FEATURE_DEVICE_STATUS then
        handle_device_status entry_id current feature pfs ev0
      else if jsonEqStr feature WEBHOOK_FEATURE_DEVICE_LOGS then
        handle_device_logs entry_id current feature log pfs ev0
      else
        Except.ok (current, [ev0])
  | _ => Except.error ()

/-! Embedding of webhook.py: hex HMAC-SHA256 (hashlib.sha256 / hmac.new) over
raw bytes, and NukiWebhookView.post.  Bytes are naturals below 256; machine
words are naturals reduced mod 2^32 by w32. -/

def w32 (n : Nat) : Nat := n % 4294967296

def rotr32 (n x : Nat) : Nat := w32 ((x >>> n) ||| (x <<< (32 - n)))

def bigSigma0 (x : Nat) : Nat := (rotr32 2 x) ^^^ (rotr32 13 x) ^^^ (rotr32 22 x)

def bigSigma1 (x : Nat) : Nat := (rotr32 6 x) ^^^ (rotr32 11 x) ^^^ (rotr32 25 x)

def smallSigma0 (x : Nat) : Nat := (rotr32 7 x) ^^^ (rotr32 18 x) ^^^ (x >>> 3)

def smallSigma1 (x : Nat) : Nat := (rotr32 17 x) ^^^ (rotr32 19 x) ^^^ (x >>> 10)

def chFn (x y z : Nat) : Nat := (x &&& y) ^^^ ((x ^^^ 4294967295) &&& z)

def majFn (x y z : Nat) : Nat := (x &&& y) ^^^ (x &&& z) ^^^ (y &&& z)

def sha256K : List Nat :=
  [1116352408, 1899447441, 3049323471, 3921009573, 961987163, 1508970993,
   2453635748, 2870763221, 3624381080, 310598401, 607225278, 1426881987,
   1925078388, 2162078206, 2614888103, 3248222580, 3835390401, 4022224774,
   264347078, 604807628, 770255983, 1249150122, 1555081692, 1996064986,
   2554220882, 2821834349, 2952996808, 3210313671, 3336571891, 3584528711,
   113926993, 338241895, 666307205, 773529912, 1294757372, 1396182291,
   1695183700, 1986661051, 2177026350, 2456956037, 2730485921, 2820302411,
   3259730800, 3345764771, 3516065817, 3600352804, 4094571909, 275423344,
   430227734, 506948616, 659060556, 883997877, 958139571, 1322822218,
   1537002063, 1747873779, 1955562222, 2024104815, 2227730452, 2361852424,
   2428436474, 2756734187, 3204031479, 3329325298]

def sha256H0 : List Nat :=
  [1779033703, 3144134277, 1013904242, 2773480762,
   1359893119, 2600822924, 528734635, 1541459225]

def bytesToWords : List Nat → List Nat
  | b0 :: b1 :: b2 :: b3 :: rest =>
      (((b0 * 256 + b1) * 256 + b2) * 256 + b3) :: bytesToWords rest
  | _ => []

/-- 48 schedule-extension steps; the accumulator holds the words produced so
far, most recent first. -/
def extendW : Nat → List Nat → List Nat
  | 0, acc => acc
  | n + 1, acc =>
      let wt := w32 (smallSigma1 (acc.getD 1 0) + acc.getD 6 0 +
        smallSigma0 (acc.getD 14 0) + acc.getD 15 0)
      extendW n (wt :: acc)

def schedule (block : List Nat) : List Nat :=
  (extendW 48 (bytesToWords block).reverse).reverse

def sha256Round (st : List Nat) (kw : Nat × Nat) : List Nat :=
  match st with
  | [a, b, c, d, e, f, g, h] =>
      let t1 := w32 (h + bigSigma1 e + chFn e f g + kw.1 + kw.2)
      let t2 := w32 (bigSigma0 a + majFn a b c)
      [w32 (t1 + t2), a, b, c, w32 (d + t1), e, f, g]
  | other => other

def compressBlock (hs : List Nat) (block : List Nat) : List Nat :=
  let fin := (sha256K.zip (schedule block)).foldl sha256Round hs
  (hs.zip fin).map (fun p => w32 (p.1 + p.2))

def lengthBytes (n : Nat) : List Nat :=
  (List.range 8).map (fun i => (n >>> (8 * (7 - i))) % 256)

def padMessage (msg : List Nat) : List Nat :=
  msg ++ 128 :: List.replicate ((119 - msg.length % 64) % 64) 0 ++ lengthBytes (8 * msg.length)

def chunksAux : Nat → List Nat → List (List Nat)
  | 0, _ => []
  | _ + 1, [] => []
  | fuel + 1, b :: rest => ((b :: rest).take 64) :: chunksAux fuel ((b :: rest).drop 64)

/-- Split a byte string into 64-byte blocks (fuel makes the recursion
structural: each step consumes at least one byte). -/
def chunks64 (l : List Nat) : List (List Nat) :=
  chunksAux l.length l

def wordBytes (w : Nat) : List Nat :=
  [(w >>> 24) % 256, (w >>> 16) % 256, (w >>> 8) % 256, w % 256]

/-- SHA-256 digest (32 bytes) of a byte string. -/
def sha256Bytes (msg : List Nat) : List Nat :=
  (((chunks64 (padMessage msg)).foldl compressBlock sha256H0).map wordBytes).flatten

/-- HMAC-SHA256 (RFC 2104, block size 64) as computed by Python hmac.new with
hashlib.sha256. -/
def hmac_sha256 (key msg : List Nat) : List Nat :=
  let k0 := if 64 < key.length then sha256Bytes key else key
  let kpad := k0 ++ List.replicate (64 - k0.length) 0
  sha256Bytes ((kpad.map (fun b => b ^^^ 92)) ++
    sha256Bytes ((kpad.map (fun b => b ^^^ 54)) ++ msg))

def hexChar (n : Nat) : Char :=
  if n < 10 then Char.ofNat (48 + n) else Char.ofNat (87 + n)

def hexOfBytes (bs : List Nat) : List Char :=
  (bs.map (fun b => [hexChar (b / 16), hexChar (b % 16)])).flatten

/-- Embedding of _hmac_sha256_hex (webhook.py lines 16-17): lowercase hex
digest of the HMAC of the raw body under the secret (already utf-8 encoded
here: the secrets and bodies in the claims are ASCII). -/
def _hmac_sha256_hex (secret body : List Nat) : List Char :=
  hexOfBytes (hmac_sha256 secret body)

/-- Python str.lower restricted to ASCII; every character the verifier compares
is an ASCII hex digit or whatever single character an attacker substituted, and
no non-ASCII character lowercases to an ASCII hex digit. -/
def lowerChar (c : Char) : Char :=
  if 'A' ≤ c ∧ c ≤ 'Z' then Char.ofNat (c.toNat + 32) else c

def strLower (s : List Char) : List Char := s.map lowerChar

/-- The signature gate of NukiWebhookView.post (webhook.py lines 50-51): the
request passes iff the header is non-empty and its lowercased value equals the
lowercased expected digest (hmac.compare_digest on equal-type str arguments is
plain constant-time equality). -/
def signature_ok (secret body : List Nat) (signature : List Char) : Bool :=
  !signature.isEmpty && (strLower signature == strLower (_hmac_sha256_hex secret body))

/-- The per-entry dict stored in hass.data[DOMAIN]: the shared webhook secret
(utf-8 bytes; none when the key is missing) and the coordinator data. -/
structure EntryData where
  webhook_secret : Option (List Nat)
  store : Option Store

/-- Embedding of NukiWebhookView.post (webhook.py lines 28-65).  json.loads is
passed as a parameter (none models a raised ValueError); the pair returned is
the HTTP status and, on 200, the coordinator data published by the handler.
An exception escaping the handler surfaces as the web framework 500. -/
def post (hass_data : List (String × EntryData)) (entry_id : String)
    (body : List Nat) (sig_header : Option (List Char))
    (json_loads : List Nat → Option Json) : Nat × Option Store :=
  match lookupKey hass_data entry_id with
  | none => (404, none)
  | some data =>
      match data.webhook_secret with
      | none => (401, none)
      | some secret =>
          if secret.isEmpty then (401, none)
          else
            let signature := sig_header.getD []
            if !signature_ok secret body signature then (401, none)
            else
              match json_loads body with
              | none => (400, none)
              | some payload =>
                  match async_handle_webhook entry_id data.store payload with
                  | .ok (st, _) => (200, some st)
                  | .error _ => (500, none)

/-- utf-8 bytes of the secret s3cr3t from the scenario in the specification. -/
def scenarioSecret : List Nat := [115, 51, 99, 114, 51, 116]

/-- The seven raw bytes of the scenario body (an ASCII JSON object binding a to 1). -/
def scenarioBody : List Nat := [123, 34, 97, 34, 58, 49, 125]

/-! Embedding of NukiLastActionSensor._format_action (sensor.py lines 60-69).
The lowercase/uppercase/title-case operations are CPython str semantics
restricted to ASCII; every label in the lookup tables is ASCII. -/

def isAsciiUpper (c : Char) : Bool := 'A' ≤ c && c ≤ 'Z'

def isAsciiLower (c : Char) : Bool := 'a' ≤ c && c ≤ 'z'

def isAsciiAlpha (c : Char) : Bool := isAsciiUpper c || isAsciiLower c

def upperChar (c : Char) : Char :=
  if isAsciiLower c then Char.ofNat (c.toNat - 32) else c

/-- Python str.title scanning state: a cased character is uppercased after an
uncased character (or at the start) and lowercased after a cased one. -/
def pyTitleAux : Bool → List Char → List Char
  | _, [] => []
  | prevCased, c :: rest =>
      let c2 :=
        if isAsciiAlpha c then (if prevCased then lowerChar c else upperChar c) else c
      c2 :: pyTitleAux (isAsciiAlpha c) rest

def pyTitle (s : String) : String := String.mk (pyTitleAux false s.toList)

/-- Python s.replace with a one-character pattern is a per-character map. -/
def underscoreToSpace (c : Char) : Char := if c == '_' then ' ' else c

def replace_underscore (s : String) : String :=
  String.mk (s.toList.map underscoreToSpace)

def listStartsWith : List Char → List Char → Bool
  | _, [] => true
  | [], _ :: _ => false
  | c :: cs, p :: ps => c == p && listStartsWith cs ps

/-- Python s.startswith(p). -/
def strStartsWith (s p : String) : Bool := listStartsWith s.toList p.toList

/-- Embedding of NukiLastActionSensor._format_action (sensor.py lines 60-69):
None for a missing or empty label, the label unchanged when it starts with
unknown(, otherwise underscores become spaces and the result is title-cased.
The sensor only reads the store; this display formatting is never written back. -/
def _format_action (action : Option String) : Option String :=
  match action with
  | none => none
  | some s =>
      if s == "" then none
      else if strStartsWith s "unknown(" then some s
      else some (pyTitle (replace_underscore s))

/-! Concrete scenario values used by the claims. -/

/-- The lowercase hex HMAC-SHA256 digest of the scenario body under the
scenario secret (the reference value from the specification scenario). -/
def scenarioDigest : List Char :=
  "d42927434049e0b8c73ce887062238cc1c6bb6644bfe66e66d8dd0f30b85679e".toList

/-- The same digest in uppercase hex. -/
def scenarioDigestUpper : List Char :=
  "D42927434049E0B8C73CE887062238CC1C6BB6644BFE66E66D8DD0F30B85679E".toList

/-- End-to-end scenario 1 device-log payload. -/
def scenario1Payload : Json :=
  Json.obj [("feature", Json.str "DEVICE_LOGS"),
    ("smartlockLog", Json.obj
      [("smartlockId", Json.num 42), ("action", Json.num 1), ("trigger", Json.num 6),
       ("authId", Json.str "7"), ("name", Json.str "Alice")])]

/-- Scenario 1 payload with the name field omitted (end-to-end scenario 2). -/
def scenario2Payload : Json :=
  Json.obj [("feature", Json.str "DEVICE_LOGS"),
    ("smartlockLog", Json.obj
      [("smartlockId", Json.num 42), ("action", Json.num 1), ("trigger", Json.num 6),
       ("authId", Json.str "7")])]

/-- A DEVICE_LOGS payload whose device id is present but not coercible to int. -/
def badIdPayload : Json :=
  Json.obj [("feature", Json.str "DEVICE_LOGS"),
    ("smartlockLog", Json.obj [("smartlockId", Json.str "abc")])]

/-- A DEVICE_LOGS payload carrying an action code absent from ACTION_LABEL. -/
def unknownActionPayload : Json :=
  Json.obj [("feature", Json.str "DEVICE_LOGS"),
    ("smartlockLog", Json.obj [("smartlockId", Json.num 42), ("action", Json.num 99)])]

/-- A payload with an unrecognized feature discriminator. -/
def unknownFeaturePayload : Json :=
  Json.obj [("feature", Json.str "DEVICE_STATUS_EXTENDED"), ("smartlockId", Json.num 42)]

/-- A DEVICE_LOGS payload carrying only the device id and no optional fields. -/
def sparseLogPayload : Json :=
  Json.obj [("feature", Json.str "DEVICE_LOGS"),
    ("smartlockLog", Json.obj [("smartlockId", Json.num 42)])]

/-- A DEVICE_STATUS payload with a state object. -/
def statusPayload : Json :=
  Json.obj [("feature", Json.str "DEVICE_STATUS"), ("smartlockId", Json.num 42),
    ("state", Json.obj [("smartlockId", Json.num 42), ("mode", Json.num 2),
      ("state", Json.num 3)])]

/-! Helper lemmas shared by the claim theorems. -/

theorem lookupKey_upsert_self {κ α : Type} [DecidableEq κ] (m : List (κ × α)) (k : κ) (v : α) :
    lookupKey (upsert m k v) k = some v := by
  induction m with
  | nil => simp [upsert, lookupKey]
  | cons p rest ih =>
      by_cases h : p.1 = k
      · simp [upsert, lookupKey, h]
      · simp [upsert, lookupKey, h, ih]

theorem lookupKey_upsert_ne {κ α : Type} [DecidableEq κ] (m : List (κ × α)) (k j : κ) (v : α)
    (h : k ≠ j) : lookupKey (upsert m k v) j = lookupKey m j := by
  induction m with
  | nil => simp [upsert, lookupKey, h]
  | cons p rest ih =>
      by_cases hp : p.1 = k
      · simp [upsert, lookupKey, hp, h]
      · simp [upsert, lookupKey, hp, ih]

/-- Feature dispatch: a payload object whose feature field is DEVICE_LOGS is
handled by the DEVICE_LOGS branch. -/
theorem dispatch_logs (entry_id : String) (data : Option Store)
    (pfs lfs : List (String × Json))
    (hf : getVal pfs "feature" = Json.str "DEVICE_LOGS")
    (hlog : pyOr (getVal pfs "smartlockLog") (Json.obj []) = Json.obj lfs) :
    async_handle_webhook entry_id data (Json.obj pfs) =
      handle_device_logs entry_id (data.getD emptyStore) (Json.str "DEVICE_LOGS")
        (Json.obj lfs) pfs (webhookEvent entry_id (Json.obj pfs)) := by
  simp [async_handle_webhook, hf, hlog, jsonEqStr, WEBHOOK_FEATURE_DEVICE_AUTHS,
    WEBHOOK_FEATURE_DEVICE_STATUS, WEBHOOK_FEATURE_DEVICE_LOGS]

/-- The DEVICE_LOGS branch with a missing (None) device id: the store is
returned untouched (async_request_refresh does not mutate it). -/
theorem logs_missing_id (entry_id : String) (current : Store) (feature : Json)
    (pfs lfs : List (String × Json)) (ev0 : BusEvent)
    (hid : pyOr (getVal lfs "smartlockId") (getVal pfs "smartlockId") = Json.null) :
    handle_device_logs entry_id current feature (Json.obj lfs) pfs ev0 =
      Except.ok (current, [ev0]) := by
  simp [handle_device_logs, hid, isNull]

/-- The DEVICE_LOGS branch with a present, int-coercible device id: all eight
attributes are overwritten and the counter bumped. -/
theorem logs_success (entry_id : String) (current : Store) (feature : Json)
    (pfs lfs : List (String × Json)) (ev0 : BusEvent) (v : Json) (smartlock_id : Int)
    (hv : pyOr (getVal lfs "smartlockId") (getVal pfs "smartlockId") = v)
    (hnn : isNull v = false)
    (hi : pyInt v = some smartlock_id) :
    handle_device_logs entry_id current feature (Json.obj lfs) pfs ev0 =
      Except.ok ((_bump_counter (logs_store_update current lfs smartlock_id) smartlock_id).1,
        [ev0, logs_event entry_id feature current lfs smartlock_id
          (_bump_counter (logs_store_update current lfs smartlock_id) smartlock_id).2]) := by
  simp [handle_device_logs, hv, hnn, hi]

/-- The DEVICE_LOGS branch with a present but non-coercible device id raises. -/
theorem logs_bad_id (entry_id : String) (current : Store) (feature : Json)
    (pfs lfs : List (String × Json)) (ev0 : BusEvent) (v : Json)
    (hv : pyOr (getVal lfs "smartlockId") (getVal pfs "smartlockId") = v)
    (hnn : isNull v = false)
    (hi : pyInt v = none) :
    handle_device_logs entry_id current feature (Json.obj lfs) pfs ev0 =
      Except.error () := by
  simp [handle_device_logs, hv, hnn, hi]

/-! Claim C1. -/

/-- Claim C1: the claim asserts that a DEVICE_LOGS payload whose device id is
not coercible to an integer is dropped without raising.  In the code only a
missing (None) id is dropped; int() on a present non-numeric id raises, so the
handler propagates an exception for smartlockId abc. -/
theorem C1_counterexample :
    pyInt (Json.str "abc") = none ∧
    async_handle_webhook "entry" (some emptyStore) badIdPayload = Except.error () := by
  exact ⟨rfl, rfl⟩

/-- Claim C1, amended: for every DEVICE_LOGS payload object whose device id
resolves to None (missing at both the log level and the top level), the handler
returns without raising, fires only the generic webhook event, and leaves the
whole Device State Store (all eight attribute maps and every event counter)
byte-for-byte unchanged.  A device id that is present but not coercible makes
the handler raise instead (still before any state mutation). -/
theorem C1_amended (entry_id : String) (data : Option Store)
    (pfs lfs : List (String × Json))
    (hf : getVal pfs "feature" = Json.str "DEVICE_LOGS")
    (hlog : pyOr (getVal pfs "smartlockLog") (Json.obj []) = Json.obj lfs)
    (hid : pyOr (getVal lfs "smartlockId") (getVal pfs "smartlockId") = Json.null) :
    async_handle_webhook entry_id data (Json.obj pfs) =
      Except.ok (data.getD emptyStore, [webhookEvent entry_id (Json.obj pfs)]) := by
  rw [dispatch_logs entry_id data pfs lfs hf hlog]
  exact logs_missing_id entry_id (data.getD emptyStore) (Json.str "DEVICE_LOGS") pfs lfs
    (webhookEvent entry_id (Json.obj pfs)) hid

/-- Witness for C1_amended at a concrete payload with no device id anywhere. -/
theorem C1_amended_witness :
    async_handle_webhook "entry" none (Json.obj [("feature", Json.str "DEVICE_LOGS")]) =
      Except.ok (emptyStore,
        [webhookEvent "entry" (Json.obj [("feature", Json.str "DEVICE_LOGS")])]) :=
  C1_amended "entry" none [("feature", Json.str "DEVICE_LOGS")] [] rfl rfl rfl

/-- Feature dispatch for DEVICE_AUTHS payload objects. -/
theorem dispatch_auths (entry_id : String) (data : Option Store)
    (pfs : List (String × Json))
    (hf : getVal pfs "feature" = Json.str "DEVICE_AUTHS") :
    async_handle_webhook entry_id data (Json.obj pfs) =
      handle_device_auths entry_id (data.getD emptyStore) (Json.str "DEVICE_AUTHS")
        pfs (webhookEvent entry_id (Json.obj pfs)) := by
  simp [async_handle_webhook, hf, jsonEqStr, WEBHOOK_FEATURE_DEVICE_AUTHS]

/-- Feature dispatch for DEVICE_STATUS payload objects. -/
theorem dispatch_status (entry_id : String) (data : Option Store)
    (pfs : List (String × Json))
    (hf : getVal pfs "feature" = Json.str "DEVICE_STATUS") :
    async_handle_webhook entry_id data (Json.obj pfs) =
      handle_device_status entry_id (data.getD emptyStore) (Json.str "DEVICE_STATUS")
        pfs (webhookEvent entry_id (Json.obj pfs)) := by
  simp [async_handle_webhook, hf, jsonEqStr, WEBHOOK_FEATURE_DEVICE_AUTHS,
    WEBHOOK_FEATURE_DEVICE_STATUS]

/-! Claim C5. -/

/-- Claim C5: the claim expects last_trigger keypad for trigger code 6, but
the coordinator's TRIGGER_LABEL maps 6 to Auto lock (keypad is code 255 there;
only the unused NUKI_TRIGGER table in const.py maps 6 to keypad). -/
theorem C5_counterexample :
    (async_handle_webhook "entry" none scenario1Payload).map
        (fun r => lookupKey r.1.last_trigger 42) =
      Except.ok (some (Json.str "Auto lock")) ∧
    Json.str "Auto lock" ≠ Json.str "keypad" := by
  refine ⟨rfl, ?_⟩
  intro h
  injection h with h2
  exact absurd h2 (by decide)

/-- Claim C5, amended: applying the scenario-1 payload to an empty store gives
device 42 last_actor Alice, last_action unlock, last_trigger Auto lock (the
coordinator's label for trigger 6) and event_counter 1. -/
theorem C5_amended :
    (async_handle_webhook "entry" none scenario1Payload).map
        (fun r => (lookupKey r.1.last_actor 42, lookupKey r.1.last_action 42,
          lookupKey r.1.last_trigger 42, lookupKey r.1.event_counter 42)) =
      Except.ok (some (Json.str "Alice"), some (Json.str "unlock"),
        some (Json.str "Auto lock"), some 1) := rfl

/-! Claim C6. -/

/-- Claim C6: with no name and no directory entry the code does not fall back
to the raw auth id string: it stores the trigger label (Auto lock for the
scenario payload), not the string 7. -/
theorem C6_counterexample :
    (async_handle_webhook "entry" none scenario2Payload).map
        (fun r => lookupKey r.1.last_actor 42) =
      Except.ok (some (Json.str "Auto lock")) ∧
    Json.str "Auto lock" ≠ Json.str "7" := by
  refine ⟨rfl, ?_⟩
  intro h
  injection h with h2
  exact absurd h2 (by decide)

/-- Claim C6, amended: the actor priority is (1) the truthy name field,
(2) the Auth Directory entry for a truthy auth id string, (3) the TRIGGER_LABEL
entry for the event's trigger (the literal Unknown when the trigger is absent,
non-coercible or unmapped); the raw auth id is never used as the fallback.  In
the scenario with name omitted the stored actor is Bob when the directory maps
7 to Bob, and Auto lock (trigger 6) when there is no directory entry. -/
theorem C6_amended :
    ((async_handle_webhook "entry"
        (some { emptyStore with auth_map := [("7", "Bob")] }) scenario2Payload).map
        (fun r => lookupKey r.1.last_actor 42) =
      Except.ok (some (Json.str "Bob"))) ∧
    (∀ (auth_map : List (String × String)) (a : Option String) (lfs : List (String × Json)),
      pyTruthy (getVal lfs "name") = true →
        resolve_actor auth_map a lfs = pyStr (getVal lfs "name")) ∧
    (∀ (auth_map : List (String × String)) (s v : String) (lfs : List (String × Json)),
      pyTruthy (getVal lfs "name") = false → s ≠ "" → lookupKey auth_map s = some v →
        resolve_actor auth_map (some s) lfs = v) ∧
    (∀ (auth_map : List (String × String)) (lfs : List (String × Json)),
      pyTruthy (getVal lfs "name") = false →
        resolve_actor auth_map none lfs = actor_trigger_fallback lfs) ∧
    (∀ (auth_map : List (String × String)) (s : String) (lfs : List (String × Json)),
      pyTruthy (getVal lfs "name") = false → lookupKey auth_map s = none →
        resolve_actor auth_map (some s) lfs = actor_trigger_fallback lfs) ∧
    (∀ (lfs : List (String × Json)) (t : Int),
      to_int (getVal lfs "trigger") = some t →
        actor_trigger_fallback lfs = lookupD TRIGGER_LABEL t "Unknown") ∧
    (∀ lfs : List (String × Json),
      to_int (getVal lfs "trigger") = none → actor_trigger_fallback lfs = "Unknown") := by
  refine ⟨rfl, ?_, ?_, ?_, ?_, ?_, ?_⟩
  · intro auth_map a lfs hname
    simp [resolve_actor, hname]
  · intro auth_map s v lfs hname hs hlook
    have hbne : (s != "") = true := by simp [bne_iff_ne, hs]
    simp [resolve_actor, hname, hbne, hlook]
  · intro auth_map lfs hname
    simp [resolve_actor, hname]
  · intro auth_map s lfs hname hlook
    by_cases hs : s = ""
    · simp [resolve_actor, hname, hs]
    · have hbne : (s != "") = true := by simp [bne_iff_ne, hs]
      simp [resolve_actor, hname, hbne, hlook]
  · intro lfs t ht
    simp [actor_trigger_fallback, ht]
  · intro lfs ht
    simp [actor_trigger_fallback, ht]

/-- Witness for C6_amended: the directory path at concrete inputs. -/
theorem C6_amended_witness :
    resolve_actor [("7", "Bob")] (some "7") [] = "Bob" :=
  C6_amended.2.2.1 [("7", "Bob")] "7" "Bob" [] rfl (by decide) rfl

/-! Claim C7. -/

/-- Claim C7: the claim asserts that attributes whose fields are absent from a
new event keep their prior values; in the code every accepted device-log event
overwrites all eight attributes, so a second event carrying only the device id
replaces the previously stored unlock action with None. -/
theorem C7_counterexample :
    ((async_handle_webhook "entry" none scenario1Payload).bind (fun r1 =>
      (async_handle_webhook "entry" (some r1.1) sparseLogPayload).map (fun r2 =>
        lookupKey r2.1.last_action 42)) = Except.ok (some Json.null)) ∧
    some Json.null ≠ some (Json.str "unlock") := by
  refine ⟨rfl, ?_⟩
  intro h
  injection h with h2
  exact Json.noConfusion h2

/-- Claim C7, amended: every accepted device-log event overwrites all eight
per-device attributes; each stored value is computed from the event fields and
the auth directory alone (never from the prior attribute values), and an
absent optional field overwrites the attribute with None rather than leaving
the prior value in place. -/
theorem C7_amended (entry_id : String) (data : Option Store)
    (pfs lfs : List (String × Json)) (v : Json) (smartlock_id : Int)
    (hf : getVal pfs "feature" = Json.str "DEVICE_LOGS")
    (hlog : pyOr (getVal pfs "smartlockLog") (Json.obj []) = Json.obj lfs)
    (hv : pyOr (getVal lfs "smartlockId") (getVal pfs "smartlockId") = v)
    (hnn : isNull v = false)
    (hi : pyInt v = some smartlock_id) :
    ∃ st evs, async_handle_webhook entry_id data (Json.obj pfs) = Except.ok (st, evs) ∧
      lookupKey st.last_actor smartlock_id =
        some (Json.str (log_actor (data.getD emptyStore).auth_map lfs)) ∧
      lookupKey st.last_auth_id smartlock_id = some (optStrJson (log_auth_id_str lfs)) ∧
      lookupKey st.last_action smartlock_id = some (log_action lfs) ∧
      lookupKey st.last_trigger smartlock_id = some (log_trigger lfs) ∧
      lookupKey st.last_completion_state smartlock_id = some (log_completion_state lfs) ∧
      lookupKey st.last_source smartlock_id = some (log_source lfs) ∧
      lookupKey st.last_device_type smartlock_id = some (getVal lfs "deviceType") ∧
      lookupKey st.last_date smartlock_id = some (getVal lfs "date") ∧
      (getVal lfs "action" = Json.null →
        lookupKey st.last_action smartlock_id = some Json.null) ∧
      (getVal lfs "date" = Json.null →
        lookupKey st.last_date smartlock_id = some Json.null) := by
  rw [dispatch_logs entry_id data pfs lfs hf hlog,
    logs_success entry_id (data.getD emptyStore) (Json.str "DEVICE_LOGS") pfs lfs
      (webhookEvent entry_id (Json.obj pfs)) v smartlock_id hv hnn hi]
  refine ⟨_, _, rfl, ?_, ?_, ?_, ?_, ?_, ?_, ?_, ?_, ?_, ?_⟩
  · exact lookupKey_upsert_self _ _ _
  · exact lookupKey_upsert_self _ _ _
  · exact lookupKey_upsert_self _ _ _
  · exact lookupKey_upsert_self _ _ _
  · exact lookupKey_upsert_self _ _ _
  · exact lookupKey_upsert_self _ _ _
  · exact lookupKey_upsert_self _ _ _
  · exact lookupKey_upsert_self _ _ _
  · intro hnullact
    have : log_action lfs = Json.null := by
      simp [log_action, to_int, hnullact, isNull, labelOr]
    rw [← this]
    exact lookupKey_upsert_self _ _ _
  · intro hnulldate
    rw [← hnulldate]
    exact lookupKey_upsert_self _ _ _

/-- Witness for C7_amended at the sparse payload: the absent action field
overwrites the stored action with None. -/
theorem C7_amended_witness :
    ∃ st evs, async_handle_webhook "entry" none sparseLogPayload = Except.ok (st, evs) ∧
      lookupKey st.last_action 42 = some Json.null := by
  obtain ⟨st, evs, h1, _, _, _, _, _, _, _, _, hnull, _⟩ :=
    C7_amended "entry" none
      [("feature", Json.str "DEVICE_LOGS"),
       ("smartlockLog", Json.obj [("smartlockId", Json.num 42)])]
      [("smartlockId", Json.num 42)] (Json.num 42) 42 rfl rfl rfl rfl rfl
  exact ⟨st, evs, h1, hnull rfl⟩

/-! Claim C8. -/

/-- Claim C8: the claim asserts that a DEVICE_STATUS event stores the raw
status and increments the counter; the code stores nothing (there is no
last_device_status key anywhere in the coordinator data) and bumps no counter:
the store comes back byte-for-byte unchanged and the counter stays 0. -/
theorem C8_counterexample :
    (async_handle_webhook "entry" none statusPayload).map
        (fun r => (r.1, lookupD r.1.event_counter 42 0)) =
      Except.ok (emptyStore, 0) ∧ (0 : Int) ≠ 1 := ⟨rfl, by decide⟩

/-- Claim C8, amended: a DEVICE_STATUS event leaves the Device State Store
entirely unchanged and increments no counter; the raw state object is only
forwarded, unmodified and undecoded, in the fired bus event. -/
theorem C8_amended (entry_id : String) (data : Option Store)
    (pfs sfs : List (String × Json))
    (hf : getVal pfs "feature" = Json.str "DEVICE_STATUS")
    (hs : pyOr (getVal pfs "state") (Json.obj []) = Json.obj sfs) :
    async_handle_webhook entry_id data (Json.obj pfs) =
      Except.ok (data.getD emptyStore,
        [webhookEvent entry_id (Json.obj pfs),
         (EVENT_NUKI_LOCK_EVENT,
           [("entry_id", Json.str entry_id),
            ("feature", Json.str "DEVICE_STATUS"),
            ("smartlockId", pyOr (getVal sfs "smartlockId") (getVal pfs "smartlockId")),
            ("state", Json.obj sfs)])]) := by
  rw [dispatch_status entry_id data pfs hf]
  simp [handle_device_status, hs]

/-- Witness for C8_amended at the concrete status payload. -/
theorem C8_amended_witness :
    async_handle_webhook "entry" none statusPayload =
      Except.ok (emptyStore,
        [webhookEvent "entry" statusPayload,
         (EVENT_NUKI_LOCK_EVENT,
           [("entry_id", Json.str "entry"),
            ("feature", Json.str "DEVICE_STATUS"),
            ("smartlockId", Json.num 42),
            ("state", Json.obj [("smartlockId", Json.num 42), ("mode", Json.num 2),
              ("state", Json.num 3)])])]) :=
  C8_amended "entry" none
    [("feature", Json.str "DEVICE_STATUS"), ("smartlockId", Json.num 42),
     ("state", Json.obj [("smartlockId", Json.num 42), ("mode", Json.num 2),
       ("state", Json.num 3)])]
    [("smartlockId", Json.num 42), ("mode", Json.num 2), ("state", Json.num 3)]
    rfl rfl

/-! Claim C3. -/

/-- Claim C3: the claim asserts that an unmapped enum code is stored as the
string unknown(code); the code instead stores the raw field value (here the
number 99) as the label, so the store does carry raw vendor values. -/
theorem C3_counterexample :
    (async_handle_webhook "entry" none unknownActionPayload).map
        (fun r => lookupKey r.1.last_action 42) =
      Except.ok (some (Json.num 99)) ∧
    Json.num 99 ≠ Json.str "unknown(99)" := ⟨rfl, nofun⟩

/-- Claim C3, amended: for an accepted device-log event, each enum-coded
attribute whose raw field coerces to an integer with no table entry is stored
as the raw field value itself (no unknown(N) marker is ever produced by the
coordinator); decoding never raises. -/
theorem C3_amended (entry_id : String) (data : Option Store)
    (pfs lfs : List (String × Json)) (v : Json) (smartlock_id : Int)
    (hf : getVal pfs "feature" = Json.str "DEVICE_LOGS")
    (hlog : pyOr (getVal pfs "smartlockLog") (Json.obj []) = Json.obj lfs)
    (hv : pyOr (getVal lfs "smartlockId") (getVal pfs "smartlockId") = v)
    (hnn : isNull v = false)
    (hi : pyInt v = some smartlock_id) :
    ∃ st evs, async_handle_webhook entry_id data (Json.obj pfs) = Except.ok (st, evs) ∧
      (∀ ai : Int, to_int (getVal lfs "action") = some ai →
        lookupKey ACTION_LABEL ai = none →
        lookupKey st.last_action smartlock_id = some (getVal lfs "action")) ∧
      (∀ ti : Int, to_int (getVal lfs "trigger") = some ti →
        lookupKey TRIGGER_LABEL ti = none →
        lookupKey st.last_trigger smartlock_id = some (getVal lfs "trigger")) ∧
      (∀ ci : Int, to_int (getVal lfs "state") = some ci →
        lookupKey COMPLETION_STATE_LABEL ci = none →
        lookupKey st.last_completion_state smartlock_id = some (getVal lfs "state")) ∧
      (∀ si : Int, to_int (getVal lfs "source") = some si →
        lookupKey SOURCE_LABEL si = none →
        lookupKey st.last_source smartlock_id = some (getVal lfs "source")) := by
  rw [dispatch_logs entry_id data pfs lfs hf hlog,
    logs_success entry_id (data.getD emptyStore) (Json.str "DEVICE_LOGS") pfs lfs
      (webhookEvent entry_id (Json.obj pfs)) v smartlock_id hv hnn hi]
  refine ⟨_, _, rfl, ?_, ?_, ?_, ?_⟩
  · intro ai hai hmiss
    have : log_action lfs = getVal lfs "action" := by simp [log_action, hai, labelOr, hmiss]
    rw [← this]
    exact lookupKey_upsert_self _ _ _
  · intro ti hti hmiss
    have : log_trigger lfs = getVal lfs "trigger" := by simp [log_trigger, hti, labelOr, hmiss]
    rw [← this]
    exact lookupKey_upsert_self _ _ _
  · intro ci hci hmiss
    have : log_completion_state lfs = getVal lfs "state" := by
      simp [log_completion_state, hci, labelOr, hmiss]
    rw [← this]
    exact lookupKey_upsert_self _ _ _
  · intro si hsi hmiss
    have : log_source lfs = getVal lfs "source" := by simp [log_source, hsi, labelOr, hmiss]
    rw [← this]
    exact lookupKey_upsert_self _ _ _

/-- Witness for C3_amended: action code 99 has no ACTION_LABEL entry and the
raw number 99 is what gets stored. -/
theorem C3_amended_witness :
    ∃ st evs, async_handle_webhook "entry" none unknownActionPayload = Except.ok (st, evs) ∧
      lookupKey st.last_action 42 = some (Json.num 99) := by
  obtain ⟨st, evs, h1, hact, _, _, _⟩ :=
    C3_amended "entry" none
      [("feature", Json.str "DEVICE_LOGS"),
       ("smartlockLog", Json.obj [("smartlockId", Json.num 42), ("action", Json.num 99)])]
      [("smartlockId", Json.num 42), ("action", Json.num 99)] (Json.num 42) 42
      rfl rfl rfl rfl rfl
  exact ⟨st, evs, h1, hact 99 rfl rfl⟩

/-! Claim C4. -/

/-- Claim C4: the claim asserts that a payload with an unrecognized feature is
accepted and increments the device counter; the code falls through to a refresh
request, leaving the store (and the counter, still 0) unchanged. -/
theorem C4_counterexample :
    (async_handle_webhook "entry" none unknownFeaturePayload).map
        (fun r => (r.1, lookupD r.1.event_counter 42 0)) =
      Except.ok (emptyStore, 0) ∧ (0 : Int) ≠ 1 := ⟨rfl, by decide⟩

/-- Claim C4, amended: a device's event_counter is incremented (by exactly one,
for exactly the resolved device) if and only if the payload's feature is
DEVICE_LOGS and its device id is present and int-coercible.  DEVICE_AUTHS
events leave every counter unchanged, DEVICE_STATUS events leave the whole
store unchanged, an unrecognized feature leaves the whole store unchanged
(counter included, contrary to the claim), a missing id drops the event with no
change, and a present non-coercible id raises (no store update is published). -/
theorem C4_amended :
    (∀ (entry_id : String) (data : Option Store) (pfs : List (String × Json)),
      jsonEqStr (getVal pfs "feature") WEBHOOK_FEATURE_DEVICE_AUTHS = false →
      jsonEqStr (getVal pfs "feature") WEBHOOK_FEATURE_DEVICE_STATUS = false →
      jsonEqStr (getVal pfs "feature") WEBHOOK_FEATURE_DEVICE_LOGS = false →
      async_handle_webhook entry_id data (Json.obj pfs) =
        Except.ok (data.getD emptyStore, [webhookEvent entry_id (Json.obj pfs)])) ∧
    (∀ (entry_id : String) (data : Option Store) (pfs : List (String × Json))
        (st : Store) (evs : List BusEvent),
      getVal pfs "feature" = Json.str "DEVICE_AUTHS" →
      async_handle_webhook entry_id data (Json.obj pfs) = Except.ok (st, evs) →
      st.event_counter = (data.getD emptyStore).event_counter) ∧
    (∀ (entry_id : String) (data : Option Store) (pfs : List (String × Json))
        (st : Store) (evs : List BusEvent),
      getVal pfs "feature" = Json.str "DEVICE_STATUS" →
      async_handle_webhook entry_id data (Json.obj pfs) = Except.ok (st, evs) →
      st = data.getD emptyStore) ∧
    (∀ (entry_id : String) (data : Option Store) (pfs lfs : List (String × Json)),
      getVal pfs "feature" = Json.str "DEVICE_LOGS" →
      pyOr (getVal pfs "smartlockLog") (Json.obj []) = Json.obj lfs →
      pyOr (getVal lfs "smartlockId") (getVal pfs "smartlockId") = Json.null →
      async_handle_webhook entry_id data (Json.obj pfs) =
        Except.ok (data.getD emptyStore, [webhookEvent entry_id (Json.obj pfs)])) ∧
    (∀ (entry_id : String) (data : Option Store) (pfs lfs : List (String × Json))
        (v : Json) (smartlock_id : Int) (st : Store) (evs : List BusEvent),
      getVal pfs "feature" = Json.str "DEVICE_LOGS" →
      pyOr (getVal pfs "smartlockLog") (Json.obj []) = Json.obj lfs →
      pyOr (getVal lfs "smartlockId") (getVal pfs "smartlockId") = v →
      isNull v = false → pyInt v = some smartlock_id →
      async_handle_webhook entry_id data (Json.obj pfs) = Except.ok (st, evs) →
      lookupD st.event_counter smartlock_id 0 =
        lookupD (data.getD emptyStore).event_counter smartlock_id 0 + 1 ∧
      ∀ j : Int, smartlock_id ≠ j →
        lookupKey st.event_counter j = lookupKey (data.getD emptyStore).event_counter j) ∧
    (∀ (entry_id : String) (data : Option Store) (pfs lfs : List (String × Json)) (v : Json),
      getVal pfs "feature" = Json.str "DEVICE_LOGS" →
      pyOr (getVal pfs "smartlockLog") (Json.obj []) = Json.obj lfs →
      pyOr (getVal lfs "smartlockId") (getVal pfs "smartlockId") = v →
      isNull v = false → pyInt v = none →
      async_handle_webhook entry_id data (Json.obj pfs) = Except.error ()) := by
  refine ⟨?_, ?_, ?_, ?_, ?_, ?_⟩
  · intro entry_id data pfs h1 h2 h3
    simp [async_handle_webhook, h1, h2, h3]
  · intro entry_id data pfs st evs hf happly
    rw [dispatch_auths entry_id data pfs hf] at happly
    cases hcase : pyOr (getVal pfs "smartlockAuth") (Json.obj []) with
    | obj afs =>
        rw [handle_device_auths, hcase] at happly
        simp only [Except.ok.injEq, Prod.mk.injEq] at happly
        rw [← happly.1]
    | null => simp [handle_device_auths, hcase] at happly
    | bool b => simp [handle_device_auths, hcase] at happly
    | num n => simp [handle_device_auths, hcase] at happly
    | str s => simp [handle_device_auths, hcase] at happly
    | arr xs => simp [handle_device_auths, hcase] at happly
  · intro entry_id data pfs st evs hf happly
    rw [dispatch_status entry_id data pfs hf] at happly
    cases hcase : pyOr (getVal pfs "state") (Json.obj []) with
    | obj sfs =>
        rw [handle_device_status, hcase] at happly
        simp only [Except.ok.injEq, Prod.mk.injEq] at happly
        exact happly.1.symm
    | null => simp [handle_device_status, hcase] at happly
    | bool b => simp [handle_device_status, hcase] at happly
    | num n => simp [handle_device_status, hcase] at happly
    | str s => simp [handle_device_status, hcase] at happly
    | arr xs => simp [handle_device_status, hcase] at happly
  · intro entry_id data pfs lfs hf hlog hid
    rw [dispatch_logs entry_id data pfs lfs hf hlog]
    exact logs_missing_id entry_id (data.getD emptyStore) (Json.str "DEVICE_LOGS") pfs lfs
      (webhookEvent entry_id (Json.obj pfs)) hid
  · intro entry_id data pfs lfs v smartlock_id st evs hf hlog hv hnn hi happly
    rw [dispatch_logs entry_id data pfs lfs hf hlog,
      logs_success entry_id (data.getD emptyStore) (Json.str "DEVICE_LOGS") pfs lfs
        (webhookEvent entry_id (Json.obj pfs)) v smartlock_id hv hnn hi] at happly
    simp only [Except.ok.injEq, Prod.mk.injEq] at happly
    rw [← happly.1]
    constructor
    · simp [_bump_counter, logs_store_update, lookupD, lookupKey_upsert_self]
    · intro j hj
      simp [_bump_counter, logs_store_update, lookupKey_upsert_ne _ _ _ _ hj]
  · intro entry_id data pfs lfs v hf hlog hv hnn hi
    rw [dispatch_logs entry_id data pfs lfs hf hlog]
    exact logs_bad_id entry_id (data.getD emptyStore) (Json.str "DEVICE_LOGS") pfs lfs
      (webhookEvent entry_id (Json.obj pfs)) v hv hnn hi

/-- Witness for C4_amended: an unrecognized feature leaves the store untouched
and a coercible-id device-log event bumps exactly the device counter to 1. -/
theorem C4_amended_witness :
    async_handle_webhook "entry" none unknownFeaturePayload =
      Except.ok (emptyStore, [webhookEvent "entry" unknownFeaturePayload]) :=
  C4_amended.1 "entry" none
    [("feature", Json.str "DEVICE_STATUS_EXTENDED"), ("smartlockId", Json.num 42)]
    rfl rfl rfl

/-! Claim C2. -/

set_option maxRecDepth 1000000 in
/-- Claim C2: the signature gate accepts exactly the requests whose header is
a non-empty case-insensitive match of the hex HMAC-SHA256 of the raw body
under the stored secret.  For secret s3cr3t and the scenario body, the digest
computed by the embedded hash equals the reference value, both its lowercase
and uppercase spellings are accepted, any single-character mutation that
changes the digest (case-insensitively) is rejected, the empty header is
rejected, and a missing stored secret or failing gate yields HTTP 401. -/
theorem C2_theorem :
    (_hmac_sha256_hex scenarioSecret scenarioBody = scenarioDigest) ∧
    (signature_ok scenarioSecret scenarioBody scenarioDigest = true) ∧
    (signature_ok scenarioSecret scenarioBody scenarioDigestUpper = true) ∧
    (∀ (i : Nat) (c : Char) (h : i < scenarioDigest.length),
      lowerChar c ≠ lowerChar scenarioDigest[i] →
      signature_ok scenarioSecret scenarioBody (scenarioDigest.set i c) = false) ∧
    (∀ secret body : List Nat, signature_ok secret body [] = false) ∧
    (∀ (secret body : List Nat) (sig : List Char),
      signature_ok secret body sig = true ↔
        sig ≠ [] ∧ strLower sig = strLower (_hmac_sha256_hex secret body)) ∧
    (∀ (hass_data : List (String × EntryData)) (entry_id : String) (ed : EntryData)
        (body : List Nat) (sigh : Option (List Char)) (parse : List Nat → Option Json),
      lookupKey hass_data entry_id = some ed → ed.webhook_secret = none →
      post hass_data entry_id body sigh parse = (401, none)) ∧
    (∀ (hass_data : List (String × EntryData)) (entry_id : String) (ed : EntryData)
        (secret body : List Nat) (sigh : Option (List Char)) (parse : List Nat → Option Json),
      lookupKey hass_data entry_id = some ed → ed.webhook_secret = some secret →
      secret ≠ [] → signature_ok secret body (sigh.getD []) = false →
      post hass_data entry_id body sigh parse = (401, none)) := by
  have hgen : ∀ (secret body : List Nat) (sig : List Char),
      signature_ok secret body sig = true ↔
        sig ≠ [] ∧ strLower sig = strLower (_hmac_sha256_hex secret body) := by
    intro s b sig
    simp [signature_ok, List.isEmpty_eq_false]
  have hdig : _hmac_sha256_hex scenarioSecret scenarioBody = scenarioDigest := by decide
  have hlow : strLower scenarioDigest = scenarioDigest := by decide
  refine ⟨hdig, by decide, by decide, ?_, ?_, hgen, ?_, ?_⟩
  · intro i c h hne
    by_contra hok
    rw [Bool.not_eq_false] at hok
    obtain ⟨-, heq⟩ := (hgen _ _ _).mp hok
    rw [hdig, hlow] at heq
    have hmap : strLower (scenarioDigest.set i c) =
        (strLower scenarioDigest).set i (lowerChar c) := by
      simp [strLower, List.map_set]
    rw [hmap, hlow] at heq
    have h1 : (scenarioDigest.set i (lowerChar c))[i]? = some (lowerChar c) :=
      List.getElem?_set_self h
    rw [heq, List.getElem?_eq_getElem h] at h1
    injection h1 with h2
    have h3 : lowerChar scenarioDigest[i] = scenarioDigest[i] := by
      have h4 := congrArg (fun l => l[i]?) hlow
      simp only [strLower, List.getElem?_map, List.getElem?_eq_getElem h,
        Option.map_some] at h4
      injection h4 with h5
    exact hne (by rw [h3, ← h2])
  · intro s b
    rfl
  · intro hass eid ed body sigh parse h1 h2
    simp [post, h1, h2]
  · intro hass eid ed secret body sigh parse h1 h2 hne hgate
    have hse : secret.isEmpty = false := List.isEmpty_eq_false.mpr hne
    simp [post, h1, h2, hse, hgate]

set_option maxRecDepth 1000000 in
/-- Witness for C2_theorem: mutating the first digest character to e is
rejected, and a stored configuration without a secret yields 401. -/
theorem C2_theorem_witness :
    signature_ok scenarioSecret scenarioBody (scenarioDigest.set 0 'e') = false ∧
    post [("entry", EntryData.mk none none)] "entry" scenarioBody none
      (fun _ => none) = (401, none) := by
  constructor
  · exact C2_theorem.2.2.2.1 0 'e' (by decide) (by decide)
  · exact C2_theorem.2.2.2.2.2.2.1 [("entry", EntryData.mk none none)] "entry"
      (EntryData.mk none none) scenarioBody none (fun _ => none) rfl rfl

/-! Claim C9. -/

/-- Claim C9: the endpoint returns 404 for an unknown installation id, 401 for
a missing or empty stored secret, 401 for a missing or invalid signature (for
every conceivable JSON parser outcome, so a bad-signature request with an
invalid JSON body gets 401, not 400), 400 when the signature passes but the
body does not parse, and 200 when the payload parses and the handler completes. -/
theorem C9_theorem :
    (∀ (hass_data : List (String × EntryData)) (entry_id : String)
        (body : List Nat) (sigh : Option (List Char)) (parse : List Nat → Option Json),
      lookupKey hass_data entry_id = none →
      post hass_data entry_id body sigh parse = (404, none)) ∧
    (∀ (hass_data : List (String × EntryData)) (entry_id : String) (ed : EntryData)
        (body : List Nat) (sigh : Option (List Char)) (parse : List Nat → Option Json),
      lookupKey hass_data entry_id = some ed → ed.webhook_secret = none →
      post hass_data entry_id body sigh parse = (401, none)) ∧
    (∀ (hass_data : List (String × EntryData)) (entry_id : String) (ed : EntryData)
        (body : List Nat) (sigh : Option (List Char)) (parse : List Nat → Option Json),
      lookupKey hass_data entry_id = some ed → ed.webhook_secret = some [] →
      post hass_data entry_id body sigh parse = (401, none)) ∧
    (∀ (hass_data : List (String × EntryData)) (entry_id : String) (ed : EntryData)
        (secret body : List Nat) (sigh : Option (List Char)) (parse : List Nat → Option Json),
      lookupKey hass_data entry_id = some ed → ed.webhook_secret = some secret →
      secret ≠ [] → signature_ok secret body (sigh.getD []) = false →
      post hass_data entry_id body sigh parse = (401, none)) ∧
    (∀ (hass_data : List (String × EntryData)) (entry_id : String) (ed : EntryData)
        (secret body : List Nat) (sigh : Option (List Char)) (parse : List Nat → Option Json),
      lookupKey hass_data entry_id = some ed → ed.webhook_secret = some secret →
      secret ≠ [] → signature_ok secret body (sigh.getD []) = true →
      parse body = none →
      post hass_data entry_id body sigh parse = (400, none)) ∧
    (∀ (hass_data : List (String × EntryData)) (entry_id : String) (ed : EntryData)
        (secret body : List Nat) (sigh : Option (List Char)) (parse : List Nat → Option Json)
        (payload : Json) (st : Store) (evs : List BusEvent),
      lookupKey hass_data entry_id = some ed → ed.webhook_secret = some secret →
      secret ≠ [] → signature_ok secret body (sigh.getD []) = true →
      parse body = some payload →
      async_handle_webhook entry_id ed.store payload = Except.ok (st, evs) →
      post hass_data entry_id body sigh parse = (200, some st)) := by
  refine ⟨?_, ?_, ?_, ?_, ?_, ?_⟩
  · intro hass eid body sigh parse h1
    simp [post, h1]
  · intro hass eid ed body sigh parse h1 h2
    simp [post, h1, h2]
  · intro hass eid ed body sigh parse h1 h2
    simp [post, h1, h2]
  · intro hass eid ed secret body sigh parse h1 h2 hne hgate
    have hse : secret.isEmpty = false := List.isEmpty_eq_false.mpr hne
    simp [post, h1, h2, hse, hgate]
  · intro hass eid ed secret body sigh parse h1 h2 hne hgate hparse
    have hse : secret.isEmpty = false := List.isEmpty_eq_false.mpr hne
    simp [post, h1, h2, hse, hgate, hparse]
  · intro hass eid ed secret body sigh parse payload st evs h1 h2 hne hgate hparse happly
    have hse : secret.isEmpty = false := List.isEmpty_eq_false.mpr hne
    simp [post, h1, h2, hse, hgate, hparse, happly]

set_option maxRecDepth 1000000 in
/-- Witness for C9_theorem: a full accepted round trip returns 200 with the
published store. -/
theorem C9_theorem_witness :
    ∃ st : Store,
      post [("e", EntryData.mk (some scenarioSecret) (some emptyStore))] "e"
        scenarioBody (some scenarioDigest) (fun _ => some sparseLogPayload) =
        (200, some st) := by
  refine ⟨_, C9_theorem.2.2.2.2.2 [("e", EntryData.mk (some scenarioSecret) (some emptyStore))]
    "e" (EntryData.mk (some scenarioSecret) (some emptyStore)) scenarioSecret scenarioBody
    (some scenarioDigest) (fun _ => some sparseLogPayload) sparseLogPayload _ _
    rfl rfl (by decide) (by decide) rfl rfl⟩

/-! Claim C10. -/

/-- Claim C10: the Last Action sensor display formatter returns None for a
missing or empty label, returns a label starting with unknown( completely
unchanged, and otherwise replaces underscores with spaces and title-cases the
words; the formatter is a pure function of the label (display only). -/
theorem C10_theorem :
    (_format_action none = none) ∧
    (_format_action (some "") = none) ∧
    (∀ s : String, s ≠ "" → strStartsWith s "unknown(" = true →
      _format_action (some s) = some s) ∧
    (∀ s : String, s ≠ "" → strStartsWith s "unknown(" = false →
      _format_action (some s) = some (pyTitle (replace_underscore s))) ∧
    (_format_action (some "lock_n_go") = some "Lock N Go") ∧
    (_format_action (some "unknown(99)") = some "unknown(99)") ∧
    (_format_action (some "door_sensor_jammed") = some "Door Sensor Jammed") := by
  refine ⟨rfl, rfl, ?_, ?_, by decide, by decide, by decide⟩
  · intro s hs hpre
    have hb : (s == "") = false := by simp [hs]
    simp [_format_action, hb, hpre]
  · intro s hs hpre
    have hb : (s == "") = false := by simp [hs]
    simp [_format_action, hb, hpre]

/-- Witness for C10_theorem: an unknown-marker label passes through unchanged. -/
theorem C10_theorem_witness :
    _format_action (some "unknown(7)") = some "unknown(7)" :=
  C10_theorem.2.2.1 "unknown(7)" (by decide) (by decide)
